import Mathlib

/-! Verification of the agri-hub advisory rule-evaluation engine.

The repository has two independent evaluators:
* `AgriBrain.analyze` in `main.py` — the crop-based rule set.  Weather values
  are read from a dictionary with `dict.get(key, 0)`, so missing keys default
  to `0`.  We model the weather dictionary as a structure of `Option ℚ`
  fields and the defaulted lookup as `Option.getD`.
* `generate_agri_advice` in `agri_advice.py` — the stage-based rule set.
  Weather values are read with direct indexing `weather_data[key]`, which
  raises `KeyError` when the key is absent; we model the evaluation in
  `Except String`, where `.error k` stands for `KeyError(k)`.  Python's
  short-circuiting `and` is modelled by only performing the second lookup
  when the first conjunct holds.

Python floats are modelled as rationals: the engine performs no arithmetic,
only comparisons against decimal literals, and every literal appearing in
the code and in the claims is exactly representable.
-/

/-- The closed crop enumeration from `main.py` (`class CropType`). -/
inductive CropType
  | maize
  | rice
  | cassava
deriving DecidableEq

/-- Python `CropType.value`: the string payload of each enum member. -/
def CropType.val : CropType → String
  | .maize => "Maize"
  | .rice => "Rice"
  | .cassava => "Cassava"

/-- The fields of `Farm` consulted by `AgriBrain.analyze`. -/
structure Farm where
  owner_name : String
  crop_type : CropType

/-- The weather dictionary passed to `AgriBrain.analyze`: each key may be
absent (`none`). -/
structure Weather where
  rainfall_mm : Option ℚ
  temp : Option ℚ
  humidity : Option ℚ

/-- The header appended first by `AgriBrain.analyze`
(`f"Analyzing for {crop.value} at {farm.owner_name}..."`). -/
def headerMsg (farm : Farm) : String :=
  "Analyzing for " ++ farm.crop_type.val ++ " at " ++ farm.owner_name ++ "..."

/-- The string `"🟢 Conditions look normal. No specific alerts."` -/
def normalMsg : String := "🟢 Conditions look normal. No specific alerts."

/-- Maize heavy-rain alert string from `main.py`. -/
def maizeRainMsg : String :=
  "🔴 ALERT: Heavy rain (>20mm) detected. Do NOT apply fertilizer today to avoid wash-off."

/-- Maize Fall-Armyworm warning string from `main.py`. -/
def maizeWormMsg : String :=
  "⚠️ WARNING: High risk of Fall Armyworm. Conditions (Temp > 28°C, Humidity < 50%) are favorable. Scout field immediately."

/-- Rice Blast warning string from `main.py`. -/
def riceBlastMsg : String :=
  "⚠️ WARNING: High humidity (>80%) detected. High risk of Rice Blast disease. Monitor crop closely."

/-- Cassava waterlogging alert string from `main.py`. -/
def cassavaRainMsg : String :=
  "🔴 ALERT: Excessive rainfall (>50mm). Risk of root rot and waterlogging. Ensure drainage channels are clear."

/-- Function `AgriBrain.analyze` from `main.py`, lines 48–78: reads the weather values
with default `0`, appends the header, runs the crop-specific rules in order,
and appends the "conditions normal" message exactly when only the header has
been emitted. -/
def analyze (weather : Weather) (farm : Farm) : List String :=
  let crop := farm.crop_type
  let rain := weather.rainfall_mm.getD 0
  let temp := weather.temp.getD 0
  let humidity := weather.humidity.getD 0
  let advice : List String := [headerMsg farm]
  let advice :=
    match crop with
    | .maize =>
        let advice := if rain > 20 then advice ++ [maizeRainMsg] else advice
        if temp > 28 ∧ humidity < 50 then advice ++ [maizeWormMsg] else advice
    | .rice =>
        if humidity > 80 then advice ++ [riceBlastMsg] else advice
    | .cassava =>
        if rain > 50 then advice ++ [cassavaRainMsg] else advice
  if advice.length = 1 then advice ++ [normalMsg] else advice

/-- Whether some crop-specific rule of `AgriBrain.analyze` fires on the given
input (the disjunction of the rule guards of lines 61–73, with the same
defaulted lookups). -/
def crop_rule_fired (weather : Weather) (farm : Farm) : Bool :=
  let rain := weather.rainfall_mm.getD 0
  let temp := weather.temp.getD 0
  let humidity := weather.humidity.getD 0
  match farm.crop_type with
  | .maize => decide (rain > 20) || (decide (temp > 28) && decide (humidity < 50))
  | .rice => decide (humidity > 80)
  | .cassava => decide (rain > 50)

/-- The weather dictionary passed to `generate_agri_advice` in
`agri_advice.py`: each key may be absent (`none`); the code indexes the
dictionary directly, so an absent key raises `KeyError`. -/
structure WeatherData where
  temp : Option ℚ
  rain_forecast_mm : Option ℚ
  humidity : Option ℚ
  soil_moisture : Option ℚ

/-- Direct dictionary indexing `weather_data[key]`: the value when present,
`KeyError(key)` (modelled as `.error key`) when absent. -/
def getKey (v : Option ℚ) (key : String) : Except String ℚ :=
  match v with
  | some x => .ok x
  | none => .error key

/-- The string `"🔴 DO NOT apply fertilizer. Heavy rain (>20mm) will wash it away."` -/
def washOffMsg : String :=
  "🔴 DO NOT apply fertilizer. Heavy rain (>20mm) will wash it away."

/-- The string `"🟢 Good conditions to apply NPK fertilizer today."` -/
def npkMsg : String := "🟢 Good conditions to apply NPK fertilizer today."

/-- The string `"⚠️ ALERT: High risk of Armyworm. Scout your field this evening."` -/
def armywormMsg : String :=
  "⚠️ ALERT: High risk of Armyworm. Scout your field this evening."

/-- The string `"🔴 Rush harvest! Rain expected. Cover harvested crops immediately."` -/
def rushHarvestMsg : String :=
  "🔴 Rush harvest! Rain expected. Cover harvested crops immediately."

/-- The string `"🟢 Weather is clear for drying crops."` -/
def clearDryingMsg : String := "🟢 Weather is clear for drying crops."

/-- Block 1 ("Fertilizer Logic") of `generate_agri_advice`, lines 9–13.
The `elif` guard is `rain_forecast_mm < 5 and soil_moisture > 40`: Python's
`and` short-circuits, so `soil_moisture` is only looked up when
`rain_forecast_mm < 5` holds — that lookup raises `KeyError` when the key is
absent. -/
def fertilizer_logic (w : WeatherData) (crop_stage : String) :
    Except String (List String) :=
  if crop_stage = "growing" then
    match w.rain_forecast_mm with
    | none => .error "rain_forecast_mm"
    | some rain =>
      if rain > 20 then .ok [washOffMsg]
      else if rain < 5 then
        match w.soil_moisture with
        | none => .error "soil_moisture"
        | some soil => if soil > 40 then .ok [npkMsg] else .ok []
      else .ok []
  else .ok []

/-- Block 2 ("Pest Logic") of `generate_agri_advice`, lines 16–17.  The guard
is `temp > 28 and humidity < 50`, so `humidity` is only looked up when
`temp > 28` holds. -/
def pest_logic (w : WeatherData) : Except String (List String) :=
  match w.temp with
  | none => .error "temp"
  | some temp =>
    if temp > 28 then
      match w.humidity with
      | none => .error "humidity"
      | some hum => if hum < 50 then .ok [armywormMsg] else .ok []
    else .ok []

/-- Block 3 ("Harvest Logic") of `generate_agri_advice`, lines 20–24. -/
def harvest_logic (w : WeatherData) (crop_stage : String) :
    Except String (List String) :=
  if crop_stage = "harvesting" then
    match w.rain_forecast_mm with
    | none => .error "rain_forecast_mm"
    | some rain =>
      if rain > 10 then .ok [rushHarvestMsg] else .ok [clearDryingMsg]
  else .ok []

/-- Function `generate_agri_advice` from `agri_advice.py`: the three blocks run in
order, each appending its messages to `advice`; the first `KeyError`
encountered aborts the whole evaluation, exactly as in Python. -/
def generate_agri_advice (weather_data : WeatherData) (crop_stage : String) :
    Except String (List String) :=
  (fertilizer_logic weather_data crop_stage).bind fun a1 =>
  (pest_logic weather_data).bind fun a2 =>
  (harvest_logic weather_data crop_stage).map fun a3 =>
  a1 ++ a2 ++ a3

/-! ### Helper lemmas about the three blocks of `generate_agri_advice` -/

theorem fertilizer_logic_not_growing (w : WeatherData) (s : String)
    (h : s ≠ "growing") : fertilizer_logic w s = .ok [] := by
  simp [fertilizer_logic, h]

theorem harvest_logic_not_harvesting (w : WeatherData) (s : String)
    (h : s ≠ "harvesting") : harvest_logic w s = .ok [] := by
  simp [harvest_logic, h]

theorem fertilizer_logic_len (w : WeatherData) (s : String) (l : List String)
    (h : fertilizer_logic w s = .ok l) : l.length ≤ 1 := by
  unfold fertilizer_logic at h
  split_ifs at h
  · rcases hr : w.rain_forecast_mm with _ | r <;> rw [hr] at h <;>
      dsimp only at h
    · cases h
    · split_ifs at h with h1 h2
      · cases h; simp
      · rcases hm : w.soil_moisture with _ | m <;> rw [hm] at h <;>
          dsimp only at h
        · cases h
        · split_ifs at h <;> cases h <;> simp
      · cases h; simp
  · cases h; simp

theorem pest_logic_len (w : WeatherData) (l : List String)
    (h : pest_logic w = .ok l) : l.length ≤ 1 := by
  unfold pest_logic at h
  rcases ht : w.temp with _ | t <;> rw [ht] at h <;> dsimp only at h
  · cases h
  · split_ifs at h with h1
    · rcases hh : w.humidity with _ | hu <;> rw [hh] at h <;> dsimp only at h
      · cases h
      · split_ifs at h <;> cases h <;> simp
    · cases h; simp

theorem harvest_logic_len (w : WeatherData) (s : String) (l : List String)
    (h : harvest_logic w s = .ok l) : l.length ≤ 1 := by
  unfold harvest_logic at h
  split_ifs at h
  · rcases hr : w.rain_forecast_mm with _ | r <;> rw [hr] at h <;>
      dsimp only at h
    · cases h
    · split_ifs at h <;> cases h <;> simp
  · cases h; simp

theorem pest_logic_eval (w : WeatherData) (t h : ℚ)
    (ht : w.temp = some t) (hh : w.humidity = some h) :
    pest_logic w = .ok (if t > 28 ∧ h < 50 then [armywormMsg] else []) := by
  unfold pest_logic
  rw [ht, hh]
  dsimp only
  by_cases h1 : t > 28
  · rw [if_pos h1]
    by_cases h2 : h < 50
    · rw [if_pos h2, if_pos ⟨h1, h2⟩]
    · rw [if_neg h2, if_neg (fun hc => h2 hc.2)]
  · rw [if_neg h1, if_neg (fun hc => h1 hc.1)]

theorem fertilizer_logic_total (w : WeatherData) (s : String) (r m : ℚ)
    (hr : w.rain_forecast_mm = some r) (hm : w.soil_moisture = some m) :
    ∃ l, fertilizer_logic w s = .ok l := by
  unfold fertilizer_logic
  rw [hr, hm]
  dsimp only
  split_ifs <;> exact ⟨_, rfl⟩

theorem harvest_logic_total (w : WeatherData) (s : String) (r : ℚ)
    (hr : w.rain_forecast_mm = some r) :
    ∃ l, harvest_logic w s = .ok l := by
  unfold harvest_logic
  rw [hr]
  dsimp only
  split_ifs <;> exact ⟨_, rfl⟩

theorem generate_agri_advice_ok (w : WeatherData) (s : String)
    (l : List String) (h : generate_agri_advice w s = .ok l) :
    ∃ l1 l2 l3, fertilizer_logic w s = .ok l1 ∧ pest_logic w = .ok l2 ∧
      harvest_logic w s = .ok l3 ∧ l = l1 ++ l2 ++ l3 := by
  unfold generate_agri_advice at h
  rcases h1 : fertilizer_logic w s with e1 | l1 <;> rw [h1] at h <;>
    simp only [Except.bind] at h
  · cases h
  rcases h2 : pest_logic w with e2 | l2 <;> rw [h2] at h <;>
    simp only [Except.bind] at h
  · cases h
  rcases h3 : harvest_logic w s with e3 | l3 <;> rw [h3] at h <;>
    simp only [Except.map] at h
  · cases h
  cases h
  exact ⟨l1, l2, l3, rfl, rfl, rfl, rfl⟩

theorem generate_agri_advice_parts (w : WeatherData) (s : String)
    (l1 l2 l3 : List String) (h1 : fertilizer_logic w s = .ok l1)
    (h2 : pest_logic w = .ok l2) (h3 : harvest_logic w s = .ok l3) :
    generate_agri_advice w s = .ok (l1 ++ l2 ++ l3) := by
  unfold generate_agri_advice
  rw [h1, h2, h3]
  rfl

/-! ### Claim theorems -/

/-- C1: For every weather reading and farm context, `analyze` returns at
least 2 messages and the first is always the header naming the crop and the
farm owner. -/
theorem analyze_header_and_min_length (weather : Weather) (farm : Farm) :
    2 ≤ (analyze weather farm).length ∧
    (analyze weather farm).head? = some (headerMsg farm) := by
  rcases farm with ⟨o, c⟩
  cases c <;>
    simp only [analyze] <;>
    split_ifs <;>
    simp_all [headerMsg]

/-- C2: the code, not the claim, is at fault here.  With `stage = growing`,
`rain_forecast_mm = 3` and `soil_moisture` absent, the `elif` guard of the
fertilizer block evaluates `weather_data['soil_moisture']` and raises
`KeyError('soil_moisture')` instead of treating the branch as not met. -/
theorem soil_missing_raises_keyerror :
    generate_agri_advice ⟨some 25, some 3, some 60, none⟩ "growing" =
      .error "soil_moisture" := rfl

/-- C3 counterexample: with the out-of-enumeration growth stage
`"flowering"` and mild weather, `generate_agri_advice` does NOT fail with an
invalid-input error — it succeeds with an empty advice list. -/
theorem invalid_stage_no_failure :
    generate_agri_advice ⟨some 20, some 0, some 50, some 0⟩ "flowering" =
      .ok [] := rfl

/-- C3 amended: an unrecognized growth stage is silently ignored — both
stage-keyed blocks emit nothing and no error is raised; only the
stage-independent Armyworm rule can still fire. -/
theorem invalid_stage_silently_ignored (w : WeatherData) (s : String)
    (t h : ℚ) (hg : s ≠ "growing") (hh : s ≠ "harvesting")
    (ht : w.temp = some t) (hu : w.humidity = some h) :
    generate_agri_advice w s =
      .ok (if t > 28 ∧ h < 50 then [armywormMsg] else []) := by
  have := generate_agri_advice_parts w s [] _ []
    (fertilizer_logic_not_growing w s hg) (pest_logic_eval w t h ht hu)
    (harvest_logic_not_harvesting w s hh)
  simpa using this

theorem invalid_stage_silently_ignored_witness :
    generate_agri_advice ⟨some 30, some 0, some 45, some 0⟩ "flowering" =
      .ok (if (30 : ℚ) > 28 ∧ (45 : ℚ) < 50 then [armywormMsg] else []) :=
  invalid_stage_silently_ignored ⟨some 30, some 0, some 45, some 0⟩
    "flowering" 30 45 (by decide) (by decide) rfl rfl

/-- C4: the "conditions normal" message is appended exactly when no
crop-specific rule fired; in that case the output is exactly
`[header, normal]`, and the message never appears among the non-header
entries when some rule fired. -/
theorem normal_msg_iff_no_rule_fired (w : Weather) (f : Farm) :
    (crop_rule_fired w f = false →
      analyze w f = [headerMsg f, normalMsg]) ∧
    (crop_rule_fired w f = true → normalMsg ∉ (analyze w f).tail) ∧
    (normalMsg ∈ (analyze w f).tail ↔ crop_rule_fired w f = false) := by
  rcases f with ⟨o, c⟩
  cases c <;>
    simp only [analyze, crop_rule_fired] <;>
    split_ifs <;>
    simp_all [normalMsg, maizeRainMsg, maizeWormMsg, riceBlastMsg,
      cassavaRainMsg]

theorem normal_msg_iff_no_rule_fired_witness :
    analyze ⟨none, none, none⟩ ⟨"Musa Farms", CropType.maize⟩ =
      [headerMsg ⟨"Musa Farms", CropType.maize⟩, normalMsg] :=
  (normal_msg_iff_no_rule_fired ⟨none, none, none⟩
    ⟨"Musa Farms", CropType.maize⟩).1 rfl

/-- C5: every threshold in both evaluators is a strict inequality.  For each
threshold (20, 28, 50 for humidity, 80, 50 for rain, 10, 5, 40) the exact
boundary value does not trigger the rule while a value one tenth past it
does.  Non-integer values such as 20.1 are written `mkRat 201 10`. -/
theorem thresholds_are_strict :
    analyze ⟨some 20, some 0, some 0⟩ ⟨"Musa Farms", CropType.maize⟩ =
      [headerMsg ⟨"Musa Farms", CropType.maize⟩, normalMsg] ∧
    analyze ⟨some (mkRat 201 10), some 0, some 0⟩
        ⟨"Musa Farms", CropType.maize⟩ =
      [headerMsg ⟨"Musa Farms", CropType.maize⟩, maizeRainMsg] ∧
    analyze ⟨some 0, some 28, some 0⟩ ⟨"Musa Farms", CropType.maize⟩ =
      [headerMsg ⟨"Musa Farms", CropType.maize⟩, normalMsg] ∧
    analyze ⟨some 0, some (mkRat 281 10), some 0⟩
        ⟨"Musa Farms", CropType.maize⟩ =
      [headerMsg ⟨"Musa Farms", CropType.maize⟩, maizeWormMsg] ∧
    analyze ⟨some 0, some 30, some 50⟩ ⟨"Musa Farms", CropType.maize⟩ =
      [headerMsg ⟨"Musa Farms", CropType.maize⟩, normalMsg] ∧
    analyze ⟨some 0, some 30, some (mkRat 499 10)⟩
        ⟨"Musa Farms", CropType.maize⟩ =
      [headerMsg ⟨"Musa Farms", CropType.maize⟩, maizeWormMsg] ∧
    analyze ⟨some 0, some 0, some 80⟩ ⟨"Chinedu Agro", CropType.rice⟩ =
      [headerMsg ⟨"Chinedu Agro", CropType.rice⟩, normalMsg] ∧
    analyze ⟨some 0, some 0, some (mkRat 801 10)⟩
        ⟨"Chinedu Agro", CropType.rice⟩ =
      [headerMsg ⟨"Chinedu Agro", CropType.rice⟩, riceBlastMsg] ∧
    analyze ⟨some 50, some 0, some 0⟩
        ⟨"Yoruba Cassava Co", CropType.cassava⟩ =
      [headerMsg ⟨"Yoruba Cassava Co", CropType.cassava⟩, normalMsg] ∧
    analyze ⟨some (mkRat 501 10), some 0, some 0⟩
        ⟨"Yoruba Cassava Co", CropType.cassava⟩ =
      [headerMsg ⟨"Yoruba Cassava Co", CropType.cassava⟩, cassavaRainMsg] ∧
    generate_agri_advice ⟨some 0, some 20, some 100, some 100⟩ "growing" =
      .ok [] ∧
    generate_agri_advice ⟨some 0, some (mkRat 201 10), some 100, some 100⟩
        "growing" = .ok [washOffMsg] ∧
    generate_agri_advice ⟨some 0, some 5, some 100, some 100⟩ "growing" =
      .ok [] ∧
    generate_agri_advice ⟨some 0, some (mkRat 49 10), some 100, some 40⟩
        "growing" = .ok [] ∧
    generate_agri_advice ⟨some 0, some (mkRat 49 10), some 100,
        some (mkRat 401 10)⟩ "growing" = .ok [npkMsg] ∧
    generate_agri_advice ⟨some 28, some 0, some 0, some 0⟩ "planting" =
      .ok [] ∧
    generate_agri_advice ⟨some (mkRat 281 10), some 0, some 49, some 0⟩
        "planting" = .ok [armywormMsg] ∧
    generate_agri_advice ⟨some 30, some 0, some 50, some 0⟩ "planting" =
      .ok [] ∧
    generate_agri_advice ⟨some 0, some 10, some 100, some 0⟩ "harvesting" =
      .ok [clearDryingMsg] ∧
    generate_agri_advice ⟨some 0, some (mkRat 101 10), some 100, some 0⟩
        "harvesting" = .ok [rushHarvestMsg] :=
  ⟨rfl, rfl, rfl, rfl, rfl, rfl, rfl, rfl, rfl, rfl, rfl, rfl, rfl, rfl,
   rfl, rfl, rfl, rfl, rfl, rfl⟩

/-- C6: with `stage = growing` and `rainForecastMm > 20`, the wash-off
Critical message is emitted first and the NPK message never appears,
regardless of where `soilMoisturePct` stands (the `elif` is short-circuited
by the first branch). -/
theorem growing_washoff_shortcircuits_npk (w : WeatherData) (r t h : ℚ)
    (hr : w.rain_forecast_mm = some r) (hr20 : r > 20)
    (ht : w.temp = some t) (hh : w.humidity = some h) :
    ∃ l, generate_agri_advice w "growing" = .ok l ∧
      l.head? = some washOffMsg ∧ npkMsg ∉ l := by
  have hf : fertilizer_logic w "growing" = .ok [washOffMsg] := by
    unfold fertilizer_logic
    rw [if_pos rfl, hr]
    dsimp only
    rw [if_pos hr20]
  have hp := pest_logic_eval w t h ht hh
  have hv : harvest_logic w "growing" = .ok [] :=
    harvest_logic_not_harvesting w "growing" (by decide)
  refine ⟨_, generate_agri_advice_parts w "growing" _ _ _ hf hp hv, ?_, ?_⟩
  · simp
  · by_cases hc : t > 28 ∧ h < 50 <;> simp [hc] <;> decide

theorem growing_washoff_shortcircuits_npk_witness :
    ∃ l, generate_agri_advice ⟨some 30, some 25, some 45, some 60⟩
        "growing" = .ok l ∧
      l.head? = some washOffMsg ∧ npkMsg ∉ l :=
  growing_washoff_shortcircuits_npk ⟨some 30, some 25, some 45, some 60⟩
    25 30 45 rfl (by norm_num) rfl rfl

/-- C7: with `stage = harvesting`, exactly one harvest message always
appears: the rush-harvest Critical message when `rainForecastMm > 10`, the
clear-for-drying Info message otherwise. -/
theorem harvesting_exactly_one_harvest_msg (w : WeatherData) (r t h : ℚ)
    (hr : w.rain_forecast_mm = some r) (ht : w.temp = some t)
    (hh : w.humidity = some h) :
    generate_agri_advice w "harvesting" =
      .ok ((if t > 28 ∧ h < 50 then [armywormMsg] else []) ++
        [if r > 10 then rushHarvestMsg else clearDryingMsg]) ∧
    ∀ l, generate_agri_advice w "harvesting" = .ok l →
      l.count rushHarvestMsg + l.count clearDryingMsg = 1 := by
  have hf : fertilizer_logic w "harvesting" = .ok [] :=
    fertilizer_logic_not_growing w "harvesting" (by decide)
  have hp := pest_logic_eval w t h ht hh
  have hv : harvest_logic w "harvesting" =
      .ok [if r > 10 then rushHarvestMsg else clearDryingMsg] := by
    unfold harvest_logic
    rw [if_pos rfl, hr]
    dsimp only
    by_cases h10 : r > 10 <;> simp [h10]
  have hmain := generate_agri_advice_parts w "harvesting" _ _ _ hf hp hv
  constructor
  · simpa using hmain
  · intro l hl
    have heq : l = [] ++ (if t > 28 ∧ h < 50 then [armywormMsg] else []) ++
        [if r > 10 then rushHarvestMsg else clearDryingMsg] := by
      injection hl.symm.trans hmain
    subst heq
    split_ifs <;> decide

theorem harvesting_exactly_one_harvest_msg_witness :
    generate_agri_advice ⟨some 0, some 15, some 100, some 0⟩ "harvesting" =
      .ok ((if (0 : ℚ) > 28 ∧ (100 : ℚ) < 50 then [armywormMsg] else []) ++
        [if (15 : ℚ) > 10 then rushHarvestMsg else clearDryingMsg]) :=
  (harvesting_exactly_one_harvest_msg ⟨some 0, some 15, some 100, some 0⟩
    15 0 100 rfl rfl rfl).1

/-- C8: the Armyworm check runs for every growth stage: whenever
`temperatureC > 28` and `humidityPct < 50` (all fields present), the
Armyworm warning is emitted whatever the stage; with stage `planting`,
temp 30, humidity 45, rain 0, soil 0 the output is exactly that warning. -/
theorem armyworm_fires_for_every_stage :
    (∀ (s : String) (t r h m : ℚ), t > 28 → h < 50 →
      ∃ l, generate_agri_advice ⟨some t, some r, some h, some m⟩ s =
          .ok l ∧ armywormMsg ∈ l) ∧
    generate_agri_advice ⟨some 30, some 0, some 45, some 0⟩ "planting" =
      .ok [armywormMsg] := by
  constructor
  · intro s t r h m ht hh
    obtain ⟨l1, h1⟩ :=
      fertilizer_logic_total ⟨some t, some r, some h, some m⟩ s r m rfl rfl
    obtain ⟨l3, h3⟩ :=
      harvest_logic_total ⟨some t, some r, some h, some m⟩ s r rfl
    have h2 : pest_logic ⟨some t, some r, some h, some m⟩ =
        .ok [armywormMsg] := by
      have := pest_logic_eval ⟨some t, some r, some h, some m⟩ t h rfl rfl
      rwa [if_pos ⟨ht, hh⟩] at this
    exact ⟨_, generate_agri_advice_parts _ s l1 _ l3 h1 h2 h3, by simp⟩
  · rfl

theorem armyworm_fires_for_every_stage_witness :
    ∃ l, generate_agri_advice ⟨some 30, some 0, some 45, some 0⟩
        "planting" = .ok l ∧ armywormMsg ∈ l :=
  armyworm_fires_for_every_stage.1 "planting" 30 0 45 0 (by norm_num)
    (by norm_num)

/-- C9: whenever the stage-based evaluator completes without a `KeyError`,
its output has at most 2 messages (a single evaluation has one stage, so the
growing and harvesting rules never fire together), and the output can be
empty. -/
theorem stage_output_at_most_two :
    (∀ (w : WeatherData) (s : String) (l : List String),
      generate_agri_advice w s = .ok l → l.length ≤ 2) ∧
    generate_agri_advice ⟨some 20, some 0, some 50, some 0⟩ "planting" =
      .ok [] := by
  constructor
  · intro w s l h
    obtain ⟨l1, l2, l3, h1, h2, h3, rfl⟩ := generate_agri_advice_ok w s l h
    have hp := pest_logic_len w l2 h2
    by_cases hg : s = "growing"
    · have hempty : harvest_logic w s = .ok [] :=
        harvest_logic_not_harvesting w s (by rw [hg]; decide)
      have h3' : ([] : List String) = l3 := by
        injection hempty.symm.trans h3
      have hf := fertilizer_logic_len w s l1 h1
      rw [← h3']
      simp only [List.length_append, List.length_nil]
      omega
    · have hempty : fertilizer_logic w s = .ok [] :=
        fertilizer_logic_not_growing w s hg
      have h1' : ([] : List String) = l1 := by
        injection hempty.symm.trans h1
      have hv := harvest_logic_len w s l3 h3
      rw [← h1']
      simp only [List.length_append, List.length_nil]
      omega
  · rfl

theorem stage_output_at_most_two_witness :
    ([washOffMsg, armywormMsg] : List String).length ≤ 2 :=
  stage_output_at_most_two.1 ⟨some 30, some 25, some 45, some 60⟩
    "growing" [washOffMsg, armywormMsg] rfl

/-- C10: `analyze` is total over weather dictionaries with missing keys —
each missing key is read as `0` via the defaulted lookup, so the empty
weather reading behaves like the all-zero reading and yields exactly the
header plus the "conditions normal" message for every crop. -/
theorem analyze_total_on_missing_fields (f : Farm) :
    analyze ⟨none, none, none⟩ f = [headerMsg f, normalMsg] ∧
    analyze ⟨none, none, none⟩ f = analyze ⟨some 0, some 0, some 0⟩ f := by
  rcases f with ⟨o, c⟩
  cases c <;> exact ⟨rfl, rfl⟩
